import Mathlib

/- Shallow embedding of the targeting controller and hardware link of the
   treehacks-2026 repository: src/vision/fisheye_utils.py, src/brain.py and
   src/hardware/api.py. All Python float arithmetic is modelled exactly over
   the rationals; fallible and stateful code is modelled by explicit state
   passing with the environment (transport write outcomes, reconnect
   outcomes, the clock) supplied as explicit parameters. -/

namespace Fisheye

/- Constants of src/vision/fisheye_utils.py. -/

def ANGLE_AT_EDGE_DEG : ℚ := 90

def MAX_THETA_DEG : ℚ := ANGLE_AT_EDGE_DEG

def CIRCLE_RADIUS_FRACTION_OF_WIDTH : ℚ := 1 / 3

def WIDTH : ℚ := 3840

def HEIGHT : ℚ := 1920

def CENTER_X : ℚ := WIDTH / 2

def CENTER_Y : ℚ := HEIGHT / 2

def RADIUS_PX : ℚ := WIDTH / 3

/-- circle_radius_px_from_frame of fisheye_utils.py: frame_width times the
fixed fraction, ignoring frame_height. -/
def circle_radius_px_from_frame (frame_width frame_height : ℚ) : ℚ :=
  frame_width * CIRCLE_RADIUS_FRACTION_OF_WIDTH

/-- offset_to_angle of fisheye_utils.py: linear radial offset to angle, with
the Python guard returning 0 for a non-positive radius. -/
def offset_to_angle (delta_pixels radius_px max_theta_deg : ℚ)
    (crop_fraction : Option ℚ) : ℚ :=
  let f := crop_fraction.getD 1
  let effective_max_theta := max_theta_deg * f
  if 0 < radius_px then delta_pixels / radius_px * effective_max_theta else 0

end Fisheye

namespace Brain

/-- A face detection bounding box (x1, y1, x2, y2) in frame pixels.
Python ints embed into the rationals; the controller divides them. -/
structure Det where
  x1 : ℚ
  y1 : ℚ
  x2 : ℚ
  y2 : ℚ
deriving DecidableEq, Repr

/-- The persistent fields of class Brain that the control flow reads or
writes: is_shooting, arm_x, arm_y. The purely diagnostic fields set by
_update_angles and _clear_state (face_theta_deg, phi, centroid, and so on)
feed no control output and are omitted. -/
structure State where
  is_shooting : Bool
  arm_x : ℚ
  arm_y : ℚ
deriving DecidableEq, Repr

/-- Session configuration of Brain.__init__: the target point. -/
structure Config where
  target_x : ℚ
  target_y : ℚ
deriving DecidableEq, Repr

/-- Structured payload of a hardware message emitted by the Brain:
"x v", "y v", and the fire messages "1" (true) and "0" (false). -/
inductive HWMessage where
  | x (v : ℚ)
  | y (v : ℚ)
  | shoot (fire : Bool)
deriving DecidableEq, Repr

/-- One send_message call issued by the Brain: payload plus the rate_limit
keyword argument it passes. -/
structure Send where
  payload : HWMessage
  rate_limit : Bool
deriving DecidableEq, Repr

def arm_x_bounds : ℚ × ℚ := (-180, 180)

def arm_y_bounds : ℚ × ℚ := (-20, 90)

/-- Python float modulo with a positive divisor: x % r = x - r * floor (x/r). -/
def pymod (x r : ℚ) : ℚ := x - r * ⌊x / r⌋

/-- fix_arm_positions of brain.py: wrap arm_x into [lo, hi) by modular
arithmetic, saturate arm_y into its bounds. -/
def fix_arm_positions (s : State) : State :=
  let lo := arm_x_bounds.1
  let hi := arm_x_bounds.2
  let r := hi - lo
  let ax := pymod (s.arm_x - lo) r + lo
  let ay :=
    if s.arm_y < arm_y_bounds.1 then arm_y_bounds.1
    else if s.arm_y > arm_y_bounds.2 then arm_y_bounds.2
    else s.arm_y
  { s with arm_x := ax, arm_y := ay }

/-- send_arm_positions of brain.py: both sends pass rate_limit=False. -/
def send_arm_positions (s : State) : List Send :=
  [⟨.x s.arm_x, false⟩, ⟨.y s.arm_y, false⟩]

/-- _target_px of brain.py: a coordinate at most 1 is treated as normalized
and scaled by the virtual frame size, otherwise used as pixels. -/
def target_px (cfg : Config) : ℚ × ℚ :=
  (if cfg.target_x ≤ 1 then cfg.target_x * Fisheye.WIDTH else cfg.target_x,
   if cfg.target_y ≤ 1 then cfg.target_y * Fisheye.HEIGHT else cfg.target_y)

/-- Squared distance of a detection center from the frame center, as in
_most_central_face of brain.py. -/
def dist2_to_center (d : Det) (cx cy : ℚ) : ℚ :=
  ((d.x1 + d.x2) / 2 - cx) ^ 2 + ((d.y1 + d.y2) / 2 - cy) ^ 2

/-- _most_central_face of brain.py: start from the first detection, replace
only on strictly smaller distance, so the first occurrence wins ties. -/
def most_central_face (frame_width frame_height : ℚ) (first : Det)
    (rest : List Det) : Det :=
  let cx := frame_width / 2
  let cy := frame_height / 2
  rest.foldl
    (fun best det =>
      if dist2_to_center det cx cy < dist2_to_center best cx cy then det
      else best)
    first

/-- The angle_delta_x_deg assignment of _update_angles: the x pixel offset in
the virtual WIDTH-by-HEIGHT space converted with the default radius
RADIUS_PX. -/
def update_angles_dx (centroid_x tx_px : ℚ) (crop : Option ℚ) : ℚ :=
  Fisheye.offset_to_angle (centroid_x * Fisheye.WIDTH - tx_px)
    Fisheye.RADIUS_PX Fisheye.MAX_THETA_DEG crop

/-- The angle_delta_y_deg assignment of _update_angles. -/
def update_angles_dy (centroid_y ty_px : ℚ) (crop : Option ℚ) : ℚ :=
  Fisheye.offset_to_angle (centroid_y * Fisheye.HEIGHT - ty_px)
    Fisheye.RADIUS_PX Fisheye.MAX_THETA_DEG crop

/-- The in-place accumulator update at the top of _step_arm, before
fix_arm_positions runs. -/
def step_arm_pre (s : State) (pan_deg tilt_deg : ℚ) : State :=
  { s with arm_x := s.arm_x + pan_deg, arm_y := s.arm_y + tilt_deg }

/-- _step_arm of brain.py: add the deltas, wrap and clamp, emit the two arm
messages. -/
def step_arm (s : State) (pan_deg tilt_deg : ℚ) : State × List Send :=
  let s2 := fix_arm_positions (step_arm_pre s pan_deg tilt_deg)
  (s2, send_arm_positions s2)

/-- The on-target test of _update_shooting: target within 0.4 of the box
width and height from the box center, boundaries inclusive. -/
def on_target_check (box : Det) (tx_px ty_px : ℚ) : Bool :=
  let cx := (box.x1 + box.x2) / 2
  let cy := (box.y1 + box.y2) / 2
  let half_w := (0.4 : ℚ) * (box.x2 - box.x1)
  let half_h := (0.4 : ℚ) * (box.y2 - box.y1)
  decide (|tx_px - cx| ≤ half_w) && decide (|ty_px - cy| ≤ half_h)

/-- _update_shooting of brain.py: store the flag and emit "1" or "0" with
rate_limit=False. -/
def update_shooting (s : State) (box : Det) (tx_px ty_px : ℚ) :
    State × Send :=
  let ot := on_target_check box tx_px ty_px
  ({ s with is_shooting := ot }, ⟨.shoot ot, false⟩)

/-- Brain.run of brain.py. An empty detection list clears only diagnostic
state (not modelled) and sends nothing. Otherwise: select the most central
face, normalize its centroid by the actual frame size, resolve the target
both in virtual space (for angles) and in frame space (for the shoot check),
convert offsets to angles, step the arm with the tilt negated, then update
shooting. Messages are emitted in the order x, y, fire. -/
def run (cfg : Config) (s : State) (detections : List Det)
    (frame_width frame_height : Option ℚ) (center_crop_fraction : Option ℚ) :
    State × List Send :=
  match detections with
  | [] => (s, [])
  | d0 :: rest =>
    let w := frame_width.getD Fisheye.WIDTH
    let h := frame_height.getD Fisheye.HEIGHT
    let box := most_central_face w h d0 rest
    let centroid_x := ((box.x1 + box.x2) / 2) / w
    let centroid_y := ((box.y1 + box.y2) / 2) / h
    let tp := target_px cfg
    let tx_frame := if cfg.target_x ≤ 1 then cfg.target_x * w else cfg.target_x
    let ty_frame := if cfg.target_y ≤ 1 then cfg.target_y * h else cfg.target_y
    let dx := update_angles_dx centroid_x tp.1 center_crop_fraction
    let dy := update_angles_dy centroid_y tp.2 center_crop_fraction
    let (s1, msgs1) := step_arm s dx (-dy)
    let (s2, msg2) := update_shooting s1 box tx_frame ty_frame
    (s2, msgs1 ++ [msg2])

end Brain

namespace Hardware

/- Constants of src/hardware/api.py. Times are in seconds, as rationals. -/

def RECONNECT_MAX_ATTEMPTS : Nat := 5

def RECONNECT_BACKOFF_SEC : ℚ := 5

def DEFAULT_RATE_LIMIT_MS : ℚ := 100

def WRITE_RETRIES : Nat := 10

/-- The mutable fields of HardwareAPI that send_message reads or writes:
_connected, last_message, _last_reconnect_attempt. -/
structure LinkState where
  connected : Bool
  last_message : ℚ
  last_reconnect_attempt : ℚ
deriving DecidableEq, Repr

/-- Outcome kind of one send_message call. The four err constructors model
the four raise sites of HardwareDisconnectedError in send_message; sent and
dropped model the normal returns. -/
inductive SendResult where
  | sent
  | dropped
  | errBackoff
  | errInitialReconnectFailed
  | errWriteAfterReconnect
  | errReconnectAfterWriteFailed
deriving DecidableEq, Repr

/-- True exactly when the call raised HardwareDisconnectedError. -/
def SendResult.isErr : SendResult → Bool
  | .sent => false
  | .dropped => false
  | _ => true

/-- Environment of one send_message call: whether transport write attempt i
succeeds (index WRITE_RETRIES is the single post-reconnect retry write),
whether a _reconnect call made on entry (link already down) succeeds,
whether the _reconnect call made after exhausted retries succeeds, and, when
that one fails, whether the exception it raises is a SerialException or
OSError (which selects the except branch taken). A _reconnect call is
modelled atomically: its internal open retries are folded into its Boolean
outcome. -/
structure SendEnv where
  writeOk : Nat → Bool
  entryReconnectOk : Bool
  tailReconnectOk : Bool
  errIsSerial : Bool

/-- Result of one send_message call: the link state afterwards, the outcome,
the number of transport write attempts performed, and the number of
_reconnect calls performed. -/
structure SendOutcome where
  state : LinkState
  result : SendResult
  writes : Nat
  reconnects : Nat
deriving DecidableEq, Repr

/-- The body of send_message after the disconnected-entry handling: the rate
limit check, the WRITE_RETRIES write loop, and on exhaustion the
disconnect-reconnect-retry tail. A successful _reconnect sets connected,
last_message and _last_reconnect_attempt to the current time; a failed one
leaves them unchanged except that the generic-exception branch stamps
_last_reconnect_attempt. -/
def send_body (rate_limit_ms : ℚ) (now : ℚ) (rate_limit : Bool)
    (env : SendEnv) (s : LinkState) (recon0 : Nat) : SendOutcome :=
  if rate_limit = true ∧ now - s.last_message < rate_limit_ms / 1000 then
    ⟨s, .dropped, 0, recon0⟩
  else
    match (List.range WRITE_RETRIES).find? env.writeOk with
    | some i =>
      ⟨if rate_limit then { s with last_message := now } else s, .sent,
        i + 1, recon0⟩
    | none =>
      let s1 : LinkState := { s with connected := false }
      if env.tailReconnectOk then
        let s2 : LinkState :=
          { s1 with
            connected := true
            last_message := now
            last_reconnect_attempt := now }
        if env.writeOk WRITE_RETRIES then
          ⟨s2, .sent, WRITE_RETRIES + 1, recon0 + 1⟩
        else
          ⟨{ s2 with connected := false }, .errWriteAfterReconnect,
            WRITE_RETRIES + 1, recon0 + 1⟩
      else
        if env.errIsSerial then
          ⟨s1, .errWriteAfterReconnect, WRITE_RETRIES, recon0 + 1⟩
        else
          ⟨{ s1 with last_reconnect_attempt := now },
            .errReconnectAfterWriteFailed, WRITE_RETRIES, recon0 + 1⟩

/-- send_message of HardwareAPI. If disconnected: fail fast inside the
backoff window, otherwise attempt one reconnect and on failure raise; then
run the send body. The message text does not influence the transport
semantics. -/
def send_message (rate_limit_ms : ℚ) (s : LinkState) (now : ℚ)
    (message : String) (rate_limit : Bool) (env : SendEnv) : SendOutcome :=
  if s.connected = false then
    if now - s.last_reconnect_attempt < RECONNECT_BACKOFF_SEC then
      ⟨s, .errBackoff, 0, 0⟩
    else if env.entryReconnectOk then
      send_body rate_limit_ms now rate_limit env
        { s with
          connected := true
          last_message := now
          last_reconnect_attempt := now } 1
    else
      ⟨{ s with last_reconnect_attempt := now }, .errInitialReconnectFailed,
        0, 1⟩
  else
    send_body rate_limit_ms now rate_limit env s 0

/-- send_heartbeat of HardwareAPI: the one-byte keepalive, sent with
rate_limit=False. -/
def send_heartbeat (rate_limit_ms : ℚ) (s : LinkState) (now : ℚ)
    (env : SendEnv) : SendOutcome :=
  send_message rate_limit_ms s now "3" false env

end Hardware

/-- One Brain.run step with its sends actually pushed through the hardware
link, mirroring the control flow of brain.py: _step_arm updates the
accumulator, then sends x and then y; a raised HardwareDisconnectedError
aborts the rest of the step (so a failed x or y send skips _update_shooting)
and surfaces to the caller as the typed error value. Env parameters give the
environment of each of the three sends. -/
def run_with_link (rate_limit_ms : ℚ) (cfg : Brain.Config) (s : Brain.State)
    (detections : List Brain.Det) (frame_width frame_height : Option ℚ)
    (center_crop_fraction : Option ℚ) (link : Hardware.LinkState) (now : ℚ)
    (envx envy envf : Hardware.SendEnv) :
    Brain.State × Hardware.LinkState × Option Hardware.SendResult :=
  match detections with
  | [] => (s, link, none)
  | d0 :: rest =>
    let w := frame_width.getD Fisheye.WIDTH
    let h := frame_height.getD Fisheye.HEIGHT
    let box := Brain.most_central_face w h d0 rest
    let centroid_x := ((box.x1 + box.x2) / 2) / w
    let centroid_y := ((box.y1 + box.y2) / 2) / h
    let tp := Brain.target_px cfg
    let tx_frame := if cfg.target_x ≤ 1 then cfg.target_x * w else cfg.target_x
    let ty_frame := if cfg.target_y ≤ 1 then cfg.target_y * h else cfg.target_y
    let dx := Brain.update_angles_dx centroid_x tp.1 center_crop_fraction
    let dy := Brain.update_angles_dy centroid_y tp.2 center_crop_fraction
    let s1 := Brain.fix_arm_positions (Brain.step_arm_pre s dx (-dy))
    let o1 := Hardware.send_message rate_limit_ms link now
      ("x " ++ toString s1.arm_x) false envx
    if o1.result.isErr then (s1, o1.state, some o1.result) else
    let o2 := Hardware.send_message rate_limit_ms o1.state now
      ("y " ++ toString s1.arm_y) false envy
    if o2.result.isErr then (s1, o2.state, some o2.result) else
    let ot := Brain.on_target_check box tx_frame ty_frame
    let s2 : Brain.State := { s1 with is_shooting := ot }
    let o3 := Hardware.send_message rate_limit_ms o2.state now
      (if ot then "1" else "0") false envf
    (s2, o3.state, if o3.result.isErr then some o3.result else none)

/-- Transport environment in which every write attempt fails and every
reconnect call succeeds. -/
def envAllFail : Hardware.SendEnv := ⟨fun _ => false, true, true, true⟩

/-- Transport environment in which every operation succeeds. -/
def envAllOk : Hardware.SendEnv := ⟨fun _ => true, true, true, true⟩

/-- Written from the wording of the specification, for comparison with the
code: membership of a point in the selected bounding box shrunk to 80
percent of its size about its own center, boundary inclusive. -/
def in_shrunk_box_spec (box : Brain.Det) (tx ty : ℚ) : Prop :=
  (box.x1 + box.x2) / 2 - (0.4 : ℚ) * (box.x2 - box.x1) ≤ tx ∧
  tx ≤ (box.x1 + box.x2) / 2 + (0.4 : ℚ) * (box.x2 - box.x1) ∧
  (box.y1 + box.y2) / 2 - (0.4 : ℚ) * (box.y2 - box.y1) ≤ ty ∧
  ty ≤ (box.y1 + box.y2) / 2 + (0.4 : ℚ) * (box.y2 - box.y1)

/-- Written from the wording of the specification, for comparison with the
code: clamp a value into a symmetric interval. -/
def clamp_spec (v lo hi : ℚ) : ℚ := max lo (min hi v)

/- Helper lemmas about the embedding, shared by the claim theorems below. -/

theorem pymod_eq_fract (x r : ℚ) (hr : r ≠ 0) :
    Brain.pymod x r = r * Int.fract (x / r) := by
  have h : r * (x / r) = x := by field_simp
  rw [Brain.pymod, Int.fract, mul_sub, h]

theorem pymod_nonneg (x r : ℚ) (hr : 0 < r) : 0 ≤ Brain.pymod x r := by
  rw [pymod_eq_fract x r hr.ne']
  exact mul_nonneg hr.le (Int.fract_nonneg _)

theorem pymod_lt (x r : ℚ) (hr : 0 < r) : Brain.pymod x r < r := by
  rw [pymod_eq_fract x r hr.ne']
  calc r * Int.fract (x / r) < r * 1 :=
        mul_lt_mul_of_pos_left (Int.fract_lt_one _) hr
    _ = r := mul_one r

theorem pymod_eq_self (x r : ℚ) (h0 : 0 ≤ x) (h1 : x < r) :
    Brain.pymod x r = x := by
  have hr : 0 < r := lt_of_le_of_lt h0 h1
  have hz : ⌊x / r⌋ = 0 := by
    rw [Int.floor_eq_zero_iff, Set.mem_Ico]
    exact ⟨div_nonneg h0 hr.le, (div_lt_one hr).mpr h1⟩
  rw [Brain.pymod, hz]
  push_cast
  ring

theorem pymod_add_right (x r : ℚ) (hr : 0 < r) :
    Brain.pymod (x + r) r = Brain.pymod x r := by
  have h : (x + r) / r = x / r + 1 := by field_simp
  rw [Brain.pymod, Brain.pymod, h, Int.floor_add_one]
  push_cast
  ring

theorem pymod_sub_right (x r : ℚ) (hr : 0 < r) :
    Brain.pymod (x - r) r = Brain.pymod x r := by
  have h : x - r + r = x := by ring
  calc Brain.pymod (x - r) r = Brain.pymod (x - r + r) r :=
        (pymod_add_right (x - r) r hr).symm
    _ = Brain.pymod x r := by rw [h]

theorem fix_arm_x_def (s : Brain.State) :
    (Brain.fix_arm_positions s).arm_x =
      Brain.pymod (s.arm_x - (-180)) 360 + (-180) := by
  simp [Brain.fix_arm_positions, Brain.arm_x_bounds]
  norm_num

theorem fix_arm_x_mem (s : Brain.State) :
    -180 ≤ (Brain.fix_arm_positions s).arm_x ∧
      (Brain.fix_arm_positions s).arm_x < 180 := by
  rw [fix_arm_x_def]
  have h0 := pymod_nonneg (s.arm_x - (-180)) 360 (by norm_num)
  have h1 := pymod_lt (s.arm_x - (-180)) 360 (by norm_num)
  constructor <;> linarith

theorem fix_arm_y_def (s : Brain.State) :
    (Brain.fix_arm_positions s).arm_y =
      if s.arm_y < -20 then -20 else if s.arm_y > 90 then 90 else s.arm_y := by
  simp [Brain.fix_arm_positions, Brain.arm_y_bounds]

theorem fix_arm_y_mem (s : Brain.State) :
    -20 ≤ (Brain.fix_arm_positions s).arm_y ∧
      (Brain.fix_arm_positions s).arm_y ≤ 90 := by
  rw [fix_arm_y_def]
  split_ifs with h1 h2
  · norm_num
  · norm_num
  · constructor <;> linarith

theorem fix_is_shooting (s : Brain.State) :
    (Brain.fix_arm_positions s).is_shooting = s.is_shooting := by
  simp [Brain.fix_arm_positions]

theorem run_state_eq (cfg : Brain.Config) (s : Brain.State) (d0 : Brain.Det)
    (rest : List Brain.Det) (fw fh crop : Option ℚ) :
    (Brain.run cfg s (d0 :: rest) fw fh crop).1 =
      (let w := fw.getD Fisheye.WIDTH
       let h := fh.getD Fisheye.HEIGHT
       let box := Brain.most_central_face w h d0 rest
       let dx := Brain.update_angles_dx (((box.x1 + box.x2) / 2) / w)
         (Brain.target_px cfg).1 crop
       let dy := Brain.update_angles_dy (((box.y1 + box.y2) / 2) / h)
         (Brain.target_px cfg).2 crop
       let s1 := Brain.fix_arm_positions (Brain.step_arm_pre s dx (-dy))
       { s1 with
         is_shooting := Brain.on_target_check box
           (if cfg.target_x ≤ 1 then cfg.target_x * w else cfg.target_x)
           (if cfg.target_y ≤ 1 then cfg.target_y * h else cfg.target_y) }) := by
  simp [Brain.run, Brain.step_arm, Brain.update_shooting]

theorem run_output_shape (cfg : Brain.Config) (s : Brain.State)
    (d0 : Brain.Det) (rest : List Brain.Det) (fw fh crop : Option ℚ) :
    (Brain.run cfg s (d0 :: rest) fw fh crop).2 =
      [⟨.x (Brain.run cfg s (d0 :: rest) fw fh crop).1.arm_x, false⟩,
       ⟨.y (Brain.run cfg s (d0 :: rest) fw fh crop).1.arm_y, false⟩,
       ⟨.shoot (Brain.run cfg s (d0 :: rest) fw fh crop).1.is_shooting,
         false⟩] := by
  simp [Brain.run, Brain.step_arm, Brain.update_shooting,
    Brain.send_arm_positions, Brain.fix_arm_positions]

/-- Claim C6: after every controller step with detections, the accumulated
joint position satisfies arm_x in [-180, 180] and arm_y in [-20, 90], and
the pan and tilt values emitted to the hardware are exactly those
accumulator values, hence also within the joint bounds; a step with no
detections leaves the state unchanged and emits nothing, so the invariant is
preserved for any detections, gains and bias magnitudes. -/
theorem C6_arm_bounds_invariant (cfg : Brain.Config) (s : Brain.State)
    (d0 : Brain.Det) (rest : List Brain.Det) (fw fh crop : Option ℚ) :
    (-180 ≤ (Brain.run cfg s (d0 :: rest) fw fh crop).1.arm_x ∧
      (Brain.run cfg s (d0 :: rest) fw fh crop).1.arm_x ≤ 180) ∧
    (-20 ≤ (Brain.run cfg s (d0 :: rest) fw fh crop).1.arm_y ∧
      (Brain.run cfg s (d0 :: rest) fw fh crop).1.arm_y ≤ 90) ∧
    (Brain.run cfg s (d0 :: rest) fw fh crop).2 =
      [⟨.x (Brain.run cfg s (d0 :: rest) fw fh crop).1.arm_x, false⟩,
       ⟨.y (Brain.run cfg s (d0 :: rest) fw fh crop).1.arm_y, false⟩,
       ⟨.shoot (Brain.run cfg s (d0 :: rest) fw fh crop).1.is_shooting,
         false⟩] ∧
    Brain.run cfg s [] fw fh crop = (s, []) := by
  refine ⟨?_, ?_, run_output_shape cfg s d0 rest fw fh crop, rfl⟩
  · rw [run_state_eq]
    dsimp only
    exact ⟨(fix_arm_x_mem _).1, le_of_lt (fix_arm_x_mem _).2⟩
  · rw [run_state_eq]
    dsimp only
    exact fix_arm_y_mem _

/-- Claim C10: the bounding of the accumulated position is asymmetric
between joints. arm_x is wrapped modularly into [-180, 180): an accumulated
value of exactly 180 maps to -180, values already inside are unchanged, and
stepping past either end jumps by 360 rather than saturating; arm_y is
saturated at -20 and 90; consequently the pan value emitted by a step never
equals 180. -/
theorem C10_wrap_vs_saturate :
    (Brain.fix_arm_positions ⟨false, 180, 0⟩).arm_x = -180 ∧
    (∀ s : Brain.State, -180 ≤ s.arm_x → s.arm_x < 180 →
      (Brain.fix_arm_positions s).arm_x = s.arm_x) ∧
    (∀ s : Brain.State, 180 ≤ s.arm_x → s.arm_x < 540 →
      (Brain.fix_arm_positions s).arm_x = s.arm_x - 360) ∧
    (∀ s : Brain.State, -540 ≤ s.arm_x → s.arm_x < -180 →
      (Brain.fix_arm_positions s).arm_x = s.arm_x + 360) ∧
    (∀ s : Brain.State, (Brain.fix_arm_positions s).arm_y =
      max (-20) (min 90 s.arm_y)) ∧
    (∀ (cfg : Brain.Config) (s : Brain.State) (d0 : Brain.Det)
      (rest : List Brain.Det) (fw fh crop : Option ℚ),
      (Brain.run cfg s (d0 :: rest) fw fh crop).1.arm_x ≠ 180 ∧
      ((Brain.run cfg s (d0 :: rest) fw fh crop).2).head? =
        some ⟨.x ((Brain.run cfg s (d0 :: rest) fw fh crop).1.arm_x),
          false⟩) := by
  refine ⟨?_, ?_, ?_, ?_, ?_, ?_⟩
  · norm_num [fix_arm_x_def, Brain.pymod]
  · intro s h0 h1
    rw [fix_arm_x_def]
    have he : s.arm_x - (-180) = s.arm_x + 180 := by ring
    rw [he, pymod_eq_self (s.arm_x + 180) 360 (by linarith) (by linarith)]
    ring
  · intro s h0 h1
    rw [fix_arm_x_def]
    have he : s.arm_x - (-180) = (s.arm_x - 180) + 360 := by ring
    rw [he, pymod_add_right (s.arm_x - 180) 360 (by norm_num),
      pymod_eq_self (s.arm_x - 180) 360 (by linarith) (by linarith)]
    ring
  · intro s h0 h1
    rw [fix_arm_x_def]
    have he : s.arm_x - (-180) = (s.arm_x + 540) - 360 := by ring
    rw [he, pymod_sub_right (s.arm_x + 540) 360 (by norm_num),
      pymod_eq_self (s.arm_x + 540) 360 (by linarith) (by linarith)]
    ring
  · intro s
    rw [fix_arm_y_def]
    split_ifs with h1 h2
    · rw [min_eq_right (by linarith : s.arm_y ≤ (90 : ℚ)),
        max_eq_left (by linarith : s.arm_y ≤ (-20 : ℚ))]
    · rw [min_eq_left (by linarith : (90 : ℚ) ≤ s.arm_y),
        max_eq_right (by norm_num : (-20 : ℚ) ≤ 90)]
    · rw [min_eq_right (by linarith : s.arm_y ≤ (90 : ℚ)),
        max_eq_right (by linarith : (-20 : ℚ) ≤ s.arm_y)]
  · intro cfg s d0 rest fw fh crop
    constructor
    · rw [run_state_eq]
      dsimp only
      exact ne_of_lt (fix_arm_x_mem _).2
    · rw [run_output_shape]
      rfl

/-- Witness for C10 at concrete states: wrapping past each end, saturation
of the tilt joint, and a concrete step whose emitted pan is not 180. -/
theorem C10_wrap_vs_saturate_witness :
    (Brain.fix_arm_positions ⟨false, 170, 0⟩).arm_x = 170 ∧
    (Brain.fix_arm_positions ⟨false, 190, 0⟩).arm_x = 190 - 360 ∧
    (Brain.fix_arm_positions ⟨false, -190, 0⟩).arm_x = -190 + 360 ∧
    (Brain.run ⟨1/2, 1/2⟩ ⟨false, 0, 0⟩ [⟨0, 0, 10, 10⟩] (some 640)
      (some 480) none).1.arm_x ≠ 180 :=
  ⟨C10_wrap_vs_saturate.2.1 ⟨false, 170, 0⟩ (by norm_num) (by norm_num),
   C10_wrap_vs_saturate.2.2.1 ⟨false, 190, 0⟩ (by norm_num) (by norm_num),
   C10_wrap_vs_saturate.2.2.2.1 ⟨false, -190, 0⟩ (by norm_num) (by norm_num),
   (C10_wrap_vs_saturate.2.2.2.2.2 ⟨1/2, 1/2⟩ ⟨false, 0, 0⟩ ⟨0, 0, 10, 10⟩
     [] (some 640) (some 480) none).1⟩

/-- Claim C8: for a selected bounding box and resolved target pixel point,
the fire flag is true exactly when the target lies inside the box shrunk to
80 percent of its size about its own center, with the boundary inclusive: a
point exactly on the shrunk edge is on-target and one pixel outside is not;
the fire message sent is the flag itself (the "1" payload when on-target,
"0" otherwise), with rate limiting disabled. -/
theorem C8_fire_decision (s : Brain.State) (box : Brain.Det) (tx ty : ℚ) :
    (Brain.on_target_check box tx ty = true ↔ in_shrunk_box_spec box tx ty) ∧
    (Brain.update_shooting s box tx ty).1.is_shooting =
      Brain.on_target_check box tx ty ∧
    (Brain.update_shooting s box tx ty).2 =
      ⟨.shoot (Brain.on_target_check box tx ty), false⟩ ∧
    (0 ≤ box.x2 - box.x1 → 0 ≤ box.y2 - box.y1 →
      Brain.on_target_check box
        ((box.x1 + box.x2) / 2 + (0.4 : ℚ) * (box.x2 - box.x1))
        ((box.y1 + box.y2) / 2) = true ∧
      Brain.on_target_check box
        ((box.x1 + box.x2) / 2 + (0.4 : ℚ) * (box.x2 - box.x1) + 1)
        ((box.y1 + box.y2) / 2) = false) := by
  refine ⟨?_, rfl, rfl, ?_⟩
  · simp only [Brain.on_target_check, in_shrunk_box_spec, Bool.and_eq_true,
      decide_eq_true_eq, abs_le]
    constructor
    · rintro ⟨⟨h1, h2⟩, h3, h4⟩
      exact ⟨by linarith, by linarith, by linarith, by linarith⟩
    · rintro ⟨h1, h2, h3, h4⟩
      exact ⟨⟨by linarith, by linarith⟩, ⟨by linarith, by linarith⟩⟩
  · intro hw hh
    constructor
    · simp only [Brain.on_target_check, Bool.and_eq_true, decide_eq_true_eq,
        abs_le]
      refine ⟨⟨by linarith, by linarith⟩, ⟨by linarith, by linarith⟩⟩
    · have hfirst : decide
          (|(box.x1 + box.x2) / 2 + (0.4 : ℚ) * (box.x2 - box.x1) + 1 -
            (box.x1 + box.x2) / 2| ≤ (0.4 : ℚ) * (box.x2 - box.x1)) = false := by
        rw [decide_eq_false_iff_not, abs_le]
        rintro ⟨h1, h2⟩
        linarith
      simp only [Brain.on_target_check]
      rw [hfirst, Bool.false_and]

/-- Witness for C8 on the concrete box (100, 100, 200, 200): the shrunk box
reaches 40 pixels from the center (150, 150), the point (190, 150) exactly
on the edge is on-target, and (191, 150) one pixel outside is not. -/
theorem C8_fire_decision_witness :
    Brain.on_target_check ⟨100, 100, 200, 200⟩ 190 150 = true ∧
    Brain.on_target_check ⟨100, 100, 200, 200⟩ 191 150 = false := by
  have h := (C8_fire_decision ⟨false, 0, 0⟩ ⟨100, 100, 200, 200⟩ 190
    150).2.2.2 (by norm_num) (by norm_num)
  norm_num at h
  exact h

/-- Counterexample to claim C3 as stated: brain.py has no dead zone — for
every candidate positive dead_zone_deg there is a step with both error
magnitudes strictly inside the zone that still changes the accumulator, so
no threshold suppresses the update. -/
theorem C3_dead_zone_cex :
    ¬ ∃ dz : ℚ, 0 < dz ∧ ∀ (s : Brain.State) (pan tilt : ℚ),
      |pan| < dz → |tilt| < dz →
      (Brain.step_arm s pan tilt).1.arm_x = s.arm_x ∧
      (Brain.step_arm s pan tilt).1.arm_y = s.arm_y := by
  rintro ⟨dz, hdz, h⟩
  set p : ℚ := min (dz / 2) 1 with hp
  have hp0 : 0 < p := lt_min (by linarith) one_pos
  have hp1 : p ≤ 1 := min_le_right _ _
  have hpd : p < dz := lt_of_le_of_lt (min_le_left _ _) (by linarith)
  have habs : |p| < dz := by rw [abs_of_pos hp0]; exact hpd
  have h0 : |(0 : ℚ)| < dz := by simpa using hdz
  have hx := (h ⟨false, 0, 0⟩ p 0 habs h0).1
  have hfix : (Brain.step_arm ⟨false, 0, 0⟩ p 0).1.arm_x = p := by
    have he : (Brain.step_arm_pre ⟨false, 0, 0⟩ p 0).arm_x - (-180) =
        p + 180 := by
      simp [Brain.step_arm_pre]
    show (Brain.fix_arm_positions (Brain.step_arm_pre ⟨false, 0, 0⟩ p
      0)).arm_x = p
    rw [fix_arm_x_def, he,
      pymod_eq_self (p + 180) 360 (by linarith) (by linarith)]
    ring
  rw [hfix] at hx
  simp at hx
  linarith

/-- Claim C3 amended: the step is applied unconditionally every frame — no
dead zone exists. _step_arm always adds the full pan and tilt deltas to the
accumulator before wrapping and clamping, and any pan in (0, 180) from the
centered state changes arm_x. -/
theorem C3_no_dead_zone_amended :
    (∀ (s : Brain.State) (pan tilt : ℚ),
      (Brain.step_arm s pan tilt).1 =
        Brain.fix_arm_positions (Brain.step_arm_pre s pan tilt) ∧
      (Brain.step_arm_pre s pan tilt).arm_x = s.arm_x + pan ∧
      (Brain.step_arm_pre s pan tilt).arm_y = s.arm_y + tilt) ∧
    (∀ pan : ℚ, 0 < pan → pan < 180 →
      (Brain.step_arm ⟨false, 0, 0⟩ pan 0).1.arm_x ≠ 0) := by
  constructor
  · intro s pan tilt
    exact ⟨rfl, rfl, rfl⟩
  · intro pan hp0 hp1
    have he : (Brain.step_arm_pre ⟨false, 0, 0⟩ pan 0).arm_x - (-180) =
        pan + 180 := by
      simp [Brain.step_arm_pre]
    show (Brain.fix_arm_positions (Brain.step_arm_pre ⟨false, 0, 0⟩ pan
      0)).arm_x ≠ 0
    rw [fix_arm_x_def, he,
      pymod_eq_self (pan + 180) 360 (by linarith) (by linarith)]
    intro hc
    linarith

/-- Witness for the amended C3 at pan = 1 degree: well inside the dead zone
the specification proposes, yet the accumulator moves. -/
theorem C3_no_dead_zone_amended_witness :
    (Brain.step_arm ⟨false, 0, 0⟩ 1 0).1.arm_x ≠ 0 :=
  C3_no_dead_zone_amended.2 1 (by norm_num) (by norm_num)

/-- Counterexample to claim C4 as stated: no gain constant and no finite
per-frame step clamp reproduce the accumulator update of brain.py, because
the raw pan delta is added unchanged — for any candidate max_step_deg the
step with pan one degree beyond it already adds more than the clamp could
allow. -/
theorem C4_step_clamp_cex :
    ¬ ∃ g M : ℚ, 0 < M ∧ ∀ (s : Brain.State) (pan tilt : ℚ),
      (Brain.step_arm_pre s pan tilt).arm_x =
        s.arm_x + clamp_spec (g * pan) (-M) M := by
  rintro ⟨g, M, hM, h⟩
  have h1 := h ⟨false, 0, 0⟩ (M + 1) 0
  have h2 : (Brain.step_arm_pre ⟨false, 0, 0⟩ (M + 1) 0).arm_x = M + 1 := by
    simp [Brain.step_arm_pre]
  have h3 : clamp_spec (g * (M + 1)) (-M) M ≤ M := by
    rw [clamp_spec]
    exact max_le (by linarith) (min_le_left _ _)
  rw [h2] at h1
  simp at h1
  linarith

/-- Claim C4 amended: the per-frame integral update adds to the accumulated
position exactly the raw angular errors — pan on the x joint and the
sign-flipped tilt on the y joint — with no gain scaling and no per-step
clamp; the sign flip of the claim is present at the call site, where
Brain.run passes the negated tilt error to the step. -/
theorem C4_integral_update_amended :
    (∀ (s : Brain.State) (pan tilt : ℚ),
      (Brain.step_arm_pre s pan tilt).arm_x = s.arm_x + pan ∧
      (Brain.step_arm_pre s pan tilt).arm_y = s.arm_y + tilt) ∧
    (∀ (cfg : Brain.Config) (s : Brain.State) (d0 : Brain.Det)
      (rest : List Brain.Det) (fw fh crop : Option ℚ),
      (Brain.run cfg s (d0 :: rest) fw fh crop).1.arm_x =
        (let w := fw.getD Fisheye.WIDTH
         let h := fh.getD Fisheye.HEIGHT
         let box := Brain.most_central_face w h d0 rest
         let dx := Brain.update_angles_dx (((box.x1 + box.x2) / 2) / w)
           (Brain.target_px cfg).1 crop
         let dy := Brain.update_angles_dy (((box.y1 + box.y2) / 2) / h)
           (Brain.target_px cfg).2 crop
         (Brain.fix_arm_positions (Brain.step_arm_pre s dx (-dy))).arm_x) ∧
      (Brain.run cfg s (d0 :: rest) fw fh crop).1.arm_y =
        (let w := fw.getD Fisheye.WIDTH
         let h := fh.getD Fisheye.HEIGHT
         let box := Brain.most_central_face w h d0 rest
         let dx := Brain.update_angles_dx (((box.x1 + box.x2) / 2) / w)
           (Brain.target_px cfg).1 crop
         let dy := Brain.update_angles_dy (((box.y1 + box.y2) / 2) / h)
           (Brain.target_px cfg).2 crop
         (Brain.fix_arm_positions (Brain.step_arm_pre s dx (-dy))).arm_y)) := by
  constructor
  · intro s pan tilt
    exact ⟨rfl, rfl⟩
  · intro cfg s d0 rest fw fh crop
    constructor
    · rw [run_state_eq]
    · rw [run_state_eq]

/-- Counterexample to claim C5 as stated: the pan command emitted by a
concrete step equals -12339/160 degrees, which is not an integer — brain.py
sends the raw accumulator value with no rounding, proportional term, or
bias. -/
theorem C5_integer_command_cex :
    ((Brain.run ⟨13/25, 9/20⟩ ⟨false, 0, 0⟩ [⟨100, 100, 200, 200⟩]
        (some 640) (some 480) none).2).head? =
      some ⟨.x (-12339/160), false⟩ ∧
    ¬ ∃ n : ℤ, ((-12339 : ℚ)/160) = (n : ℚ) := by
  constructor
  · norm_num [Brain.run, Brain.most_central_face, Brain.target_px,
      Brain.update_angles_dx, Brain.update_angles_dy,
      Fisheye.offset_to_angle, Fisheye.RADIUS_PX, Fisheye.WIDTH,
      Fisheye.HEIGHT, Fisheye.MAX_THETA_DEG, Fisheye.ANGLE_AT_EDGE_DEG,
      Brain.step_arm, Brain.step_arm_pre, Brain.fix_arm_positions,
      Brain.arm_x_bounds, Brain.arm_y_bounds, Brain.pymod,
      Brain.send_arm_positions, Brain.update_shooting, Brain.on_target_check]
  · rintro ⟨n, hn⟩
    have h2 : ((160 : ℤ) * n : ℚ) = -12339 := by
      push_cast
      rw [← hn]
      norm_num
    have h3 : (160 : ℤ) * n = -12339 := by exact_mod_cast h2
    omega

/-- Claim C5 amended: the emitted commands of a step are the raw wrapped and
clamped accumulator values themselves — rational pan and tilt positions sent
without proportional term, bias, or rounding to integer degrees — followed
by the fire flag, all with rate limiting disabled. -/
theorem C5_raw_command_amended (cfg : Brain.Config) (s : Brain.State)
    (d0 : Brain.Det) (rest : List Brain.Det) (fw fh crop : Option ℚ) :
    (Brain.run cfg s (d0 :: rest) fw fh crop).2 =
      (let w := fw.getD Fisheye.WIDTH
       let h := fh.getD Fisheye.HEIGHT
       let box := Brain.most_central_face w h d0 rest
       let dx := Brain.update_angles_dx (((box.x1 + box.x2) / 2) / w)
         (Brain.target_px cfg).1 crop
       let dy := Brain.update_angles_dy (((box.y1 + box.y2) / 2) / h)
         (Brain.target_px cfg).2 crop
       let s1 := Brain.fix_arm_positions (Brain.step_arm_pre s dx (-dy))
       [⟨.x s1.arm_x, false⟩, ⟨.y s1.arm_y, false⟩,
        ⟨.shoot (Brain.on_target_check box
          (if cfg.target_x ≤ 1 then cfg.target_x * w else cfg.target_x)
          (if cfg.target_y ≤ 1 then cfg.target_y * h else cfg.target_y)),
          false⟩]) := by
  simp [Brain.run, Brain.step_arm, Brain.send_arm_positions,
    Brain.update_shooting]

/-- Counterexample to claim C1 as stated: in a concrete 640x480 step with
the normalized target (1/2, 1/2) and box (100, 100, 200, 200), the
tilt-axis pixel-to-angle conversion of the aim error yields -405/16
degrees, while converting the actual-frame pixel offset with the radius
R = w * K from the actual frame width yields -1215/32 degrees — the
controller converts in a hardcoded 3840x1920 virtual space with radius
WIDTH/3 and never calls circle_radius_px_from_frame, so the angles differ
whenever the frame aspect ratio is not the virtual 2:1. -/
theorem C1_radius_from_width_cex :
    Brain.update_angles_dy ((150 : ℚ)/480) (Brain.target_px ⟨1/2, 1/2⟩).2
        none = -405/16 ∧
    Fisheye.offset_to_angle ((150 : ℚ) - 240)
        (Fisheye.circle_radius_px_from_frame 640 480) Fisheye.MAX_THETA_DEG
        none = -1215/32 ∧
    ((-405 : ℚ)/16) ≠ -1215/32 ∧
    (Brain.run ⟨1/2, 1/2⟩ ⟨false, 0, 0⟩ [⟨100, 100, 200, 200⟩] (some 640)
      (some 480) none).1.arm_y = 405/16 := by
  refine ⟨?_, ?_, by norm_num, ?_⟩
  · norm_num [Brain.update_angles_dy, Brain.target_px,
      Fisheye.offset_to_angle, Fisheye.RADIUS_PX, Fisheye.WIDTH,
      Fisheye.HEIGHT, Fisheye.MAX_THETA_DEG, Fisheye.ANGLE_AT_EDGE_DEG]
  · norm_num [Fisheye.offset_to_angle, Fisheye.circle_radius_px_from_frame,
      Fisheye.CIRCLE_RADIUS_FRACTION_OF_WIDTH, Fisheye.MAX_THETA_DEG,
      Fisheye.ANGLE_AT_EDGE_DEG]
  · norm_num [Brain.run, Brain.most_central_face, Brain.target_px,
      Brain.update_angles_dx, Brain.update_angles_dy,
      Fisheye.offset_to_angle, Fisheye.RADIUS_PX, Fisheye.WIDTH,
      Fisheye.HEIGHT, Fisheye.MAX_THETA_DEG, Fisheye.ANGLE_AT_EDGE_DEG,
      Brain.step_arm, Brain.step_arm_pre, Brain.fix_arm_positions,
      Brain.arm_x_bounds, Brain.arm_y_bounds, Brain.pymod,
      Brain.send_arm_positions, Brain.update_shooting, Brain.on_target_check]

/-- Claim C1 amended: circle_radius_px_from_frame does compute
R = frame_width * K with K = 1/3, independent of the frame height; and for
steps whose target is normalized, the pan-axis conversion of the aim error
is extensionally equal to converting the actual-frame pixel offset with
that radius, for every actual frame width — the implementation reaches this
by renormalizing into a fixed 3840-wide virtual space with the hardcoded
radius WIDTH/3. On the tilt axis the same equality additionally needs the
actual aspect ratio to match the virtual one, h = w/2. -/
theorem C1_radius_from_width_amended (w h : ℚ) (crop : Option ℚ) (c t : ℚ)
    (hw : 0 < w) (ht : t ≤ 1) :
    Fisheye.circle_radius_px_from_frame w h =
      w * Fisheye.CIRCLE_RADIUS_FRACTION_OF_WIDTH ∧
    (∀ h2 : ℚ, Fisheye.circle_radius_px_from_frame w h =
      Fisheye.circle_radius_px_from_frame w h2) ∧
    Brain.update_angles_dx c (if t ≤ 1 then t * Fisheye.WIDTH else t) crop =
      Fisheye.offset_to_angle (c * w - t * w)
        (Fisheye.circle_radius_px_from_frame w h) Fisheye.MAX_THETA_DEG
        crop ∧
    (h = w / 2 →
      Brain.update_angles_dy c (if t ≤ 1 then t * Fisheye.HEIGHT else t)
          crop =
        Fisheye.offset_to_angle (c * h - t * h)
          (Fisheye.circle_radius_px_from_frame w h) Fisheye.MAX_THETA_DEG
          crop) := by
  have hw3 : (0 : ℚ) < w * Fisheye.CIRCLE_RADIUS_FRACTION_OF_WIDTH := by
    rw [Fisheye.CIRCLE_RADIUS_FRACTION_OF_WIDTH]
    exact mul_pos hw (by norm_num)
  refine ⟨rfl, fun h2 => rfl, ?_, ?_⟩
  · rw [if_pos ht]
    unfold Brain.update_angles_dx Fisheye.offset_to_angle
      Fisheye.circle_radius_px_from_frame
    dsimp only
    rw [if_pos (by norm_num [Fisheye.RADIUS_PX, Fisheye.WIDTH] :
          (0 : ℚ) < Fisheye.RADIUS_PX),
      if_pos hw3]
    rw [Fisheye.RADIUS_PX, Fisheye.WIDTH,
      Fisheye.CIRCLE_RADIUS_FRACTION_OF_WIDTH]
    field_simp
    ring
  · intro hh
    subst hh
    rw [if_pos ht]
    unfold Brain.update_angles_dy Fisheye.offset_to_angle
      Fisheye.circle_radius_px_from_frame
    dsimp only
    rw [if_pos (by norm_num [Fisheye.RADIUS_PX, Fisheye.WIDTH] :
          (0 : ℚ) < Fisheye.RADIUS_PX),
      if_pos hw3]
    rw [Fisheye.RADIUS_PX, Fisheye.WIDTH, Fisheye.HEIGHT,
      Fisheye.CIRCLE_RADIUS_FRACTION_OF_WIDTH]
    field_simp
    ring

/-- Witness for the amended C1 at w = 640, h = 320 (aspect 2:1), normalized
target 1/2 and centroid fraction 1/4: both the pan and tilt conversions
agree with the actual-width radius, both giving -67.5 degrees. -/
theorem C1_radius_from_width_amended_witness :
    (0 : ℚ) < 640 ∧ (1/2 : ℚ) ≤ 1 ∧
    Brain.update_angles_dx (1/4)
        (if (1/2 : ℚ) ≤ 1 then (1/2) * Fisheye.WIDTH else 1/2) none =
      Fisheye.offset_to_angle ((1/4) * 640 - (1/2) * 640)
        (Fisheye.circle_radius_px_from_frame 640 320) Fisheye.MAX_THETA_DEG
        none ∧
    Brain.update_angles_dy (1/4)
        (if (1/2 : ℚ) ≤ 1 then (1/2) * Fisheye.HEIGHT else 1/2) none =
      Fisheye.offset_to_angle ((1/4) * 320 - (1/2) * 320)
        (Fisheye.circle_radius_px_from_frame 640 320) Fisheye.MAX_THETA_DEG
        none :=
  ⟨by norm_num, by norm_num,
   (C1_radius_from_width_amended 640 320 none (1/4) (1/2) (by norm_num)
     (by norm_num)).2.2.1,
   (C1_radius_from_width_amended 640 320 none (1/4) (1/2) (by norm_num)
     (by norm_num)).2.2.2 (by norm_num)⟩

/-- Claim C2: a send on a connected link that passes the rate limit check
and whose payload write fails on all WRITE_RETRIES attempts transitions the
link to Disconnected, performs exactly one reconnect call, retries the
write exactly once more (WRITE_RETRIES + 1 transport writes in total), and,
when that retry also fails, raises the distinct
disconnected-after-reconnect HardwareDisconnectedError and leaves the link
Disconnected. -/
theorem C2_write_exhaustion_reconnect (rl : ℚ) (s : Hardware.LinkState)
    (now : ℚ) (msg : String) (rate_limit : Bool) (env : Hardware.SendEnv)
    (hc : s.connected = true)
    (hnd : rate_limit = true → rl / 1000 ≤ now - s.last_message)
    (hw : ∀ i, i < Hardware.WRITE_RETRIES → env.writeOk i = false)
    (htr : env.tailReconnectOk = true)
    (hw2 : env.writeOk Hardware.WRITE_RETRIES = false) :
    Hardware.send_message rl s now msg rate_limit env =
      ⟨⟨false, now, now⟩, .errWriteAfterReconnect,
        Hardware.WRITE_RETRIES + 1, 1⟩ ∧
    Hardware.SendResult.isErr .errWriteAfterReconnect = true ∧
    Hardware.SendResult.errWriteAfterReconnect ≠ .errBackoff ∧
    Hardware.SendResult.errWriteAfterReconnect ≠
      .errInitialReconnectFailed ∧
    Hardware.SendResult.errWriteAfterReconnect ≠
      .errReconnectAfterWriteFailed := by
  refine ⟨?_, rfl, by simp, by simp, by simp⟩
  have hfind : (List.range Hardware.WRITE_RETRIES).find? env.writeOk =
      none := by
    rw [List.find?_eq_none]
    intro i hi
    simp [hw i (List.mem_range.mp hi)]
  have hrlf : ¬ (rate_limit = true ∧ now - s.last_message < rl / 1000) := by
    rintro ⟨h1, h2⟩
    exact absurd h2 (not_lt.mpr (hnd h1))
  rw [Hardware.send_message, if_neg (by rw [hc]; simp)]
  rw [Hardware.send_body, if_neg hrlf, hfind]
  dsimp only
  rw [htr, hw2]
  simp

/-- Witness for C2: a concrete connected link at time 50 with every write
failing and the reconnect succeeding ends Disconnected with the
disconnected-after-reconnect error after 11 writes and 1 reconnect. -/
theorem C2_write_exhaustion_reconnect_witness :
    Hardware.send_message 100 ⟨true, 0, 0⟩ 50 "x 0" true envAllFail =
      ⟨⟨false, 50, 50⟩, .errWriteAfterReconnect, 11, 1⟩ :=
  (C2_write_exhaustion_reconnect 100 ⟨true, 0, 0⟩ 50 "x 0" true envAllFail
    rfl (fun _ => by norm_num) (fun i _ => rfl) rfl rfl).1

/-- Claim C9: on a connected link, a rate-limited send issued strictly
within the configured interval of the last rate-limited send is silently
dropped — no transport write occurs, no error is raised, and the state is
unchanged; one issued at or after the interval is written; a send with rate
limiting disabled is never dropped by the throttle, and the Brain's aim and
fire sends and the heartbeat all disable rate limiting. -/
theorem C9_rate_limiting (rl : ℚ) (s : Hardware.LinkState) (now : ℚ)
    (msg : String) (env : Hardware.SendEnv) :
    (s.connected = true → now - s.last_message < rl / 1000 →
      Hardware.send_message rl s now msg true env = ⟨s, .dropped, 0, 0⟩) ∧
    (s.connected = true → rl / 1000 ≤ now - s.last_message →
      env.writeOk 0 = true →
      (Hardware.send_message rl s now msg true env).result = .sent ∧
      (Hardware.send_message rl s now msg true env).writes = 1) ∧
    (Hardware.send_message rl s now msg false env).result ≠ .dropped ∧
    Hardware.send_heartbeat rl s now env =
      Hardware.send_message rl s now "3" false env ∧
    (∀ (cfg : Brain.Config) (bs : Brain.State) (d0 : Brain.Det)
      (rest : List Brain.Det) (fw fh crop : Option ℚ),
      ∀ m ∈ (Brain.run cfg bs (d0 :: rest) fw fh crop).2,
        m.rate_limit = false) := by
  refine ⟨?_, ?_, ?_, rfl, ?_⟩
  · intro hc hlt
    rw [Hardware.send_message, if_neg (by rw [hc]; simp)]
    rw [Hardware.send_body, if_pos ⟨rfl, hlt⟩]
  · intro hc hge h0
    have hfind : (List.range Hardware.WRITE_RETRIES).find? env.writeOk =
        some 0 := by
      have hr : List.range Hardware.WRITE_RETRIES =
          0 :: (List.range 9).map Nat.succ := by
        rw [show Hardware.WRITE_RETRIES = 9 + 1 from rfl,
          List.range_succ_eq_map]
      rw [hr, List.find?_cons_of_pos _ h0]
    have hcond : ¬ ((true = true) ∧ now - s.last_message < rl / 1000) := by
      rintro ⟨-, h2⟩
      exact absurd h2 (not_lt.mpr hge)
    rw [Hardware.send_message, if_neg (by rw [hc]; simp)]
    rw [Hardware.send_body, if_neg hcond, hfind]
    exact ⟨rfl, rfl⟩
  · have hbody : ∀ (s2 : Hardware.LinkState) (r0 : Nat),
        (Hardware.send_body rl now false env s2 r0).result ≠ .dropped := by
      intro s2 r0
      rw [Hardware.send_body,
        if_neg (by rintro ⟨h1, -⟩; exact Bool.false_ne_true h1)]
      cases hfe : (List.range Hardware.WRITE_RETRIES).find? env.writeOk with
      | some i => simp
      | none =>
        dsimp only
        by_cases ht : env.tailReconnectOk = true
        · rw [ht]
          by_cases hwk : env.writeOk Hardware.WRITE_RETRIES = true
          · rw [hwk]
            simp
          · rw [Bool.not_eq_true] at hwk
            rw [hwk]
            simp
        · rw [Bool.not_eq_true] at ht
          rw [ht]
          by_cases hs : env.errIsSerial = true
          · rw [hs]
            simp
          · rw [Bool.not_eq_true] at hs
            rw [hs]
            simp
    rw [Hardware.send_message]
    split_ifs with h1 h2 h3
    · simp
    · exact hbody _ _
    · simp
    · exact hbody _ _
  · intro cfg bs d0 rest fw fh crop m hm
    rw [run_output_shape] at hm
    simp only [List.mem_cons, List.not_mem_nil, or_false] at hm
    rcases hm with rfl | rfl | rfl <;> rfl

/-- Witness for C9: with a 100 ms interval, a rate-limited send 10 ms after
the last one is dropped with the link state untouched; a send a full second
later is written on the first attempt; and a send with rate limiting
disabled at the same early time is not dropped. -/
theorem C9_rate_limiting_witness :
    Hardware.send_message 100 ⟨true, 0, 0⟩ (1/100) "2" true envAllOk =
      ⟨⟨true, 0, 0⟩, .dropped, 0, 0⟩ ∧
    (Hardware.send_message 100 ⟨true, 0, 0⟩ 1 "2" true envAllOk).result =
      .sent ∧
    (Hardware.send_message 100 ⟨true, 0, 0⟩ 1 "2" true envAllOk).writes =
      1 ∧
    (Hardware.send_message 100 ⟨true, 0, 0⟩ (1/100) "2" false
      envAllOk).result ≠ .dropped :=
  ⟨(C9_rate_limiting 100 ⟨true, 0, 0⟩ (1/100) "2" envAllOk).1 rfl
     (by norm_num),
   ((C9_rate_limiting 100 ⟨true, 0, 0⟩ 1 "2" envAllOk).2.1 rfl (by norm_num)
     rfl).1,
   ((C9_rate_limiting 100 ⟨true, 0, 0⟩ 1 "2" envAllOk).2.1 rfl (by norm_num)
     rfl).2,
   (C9_rate_limiting 100 ⟨true, 0, 0⟩ (1/100) "2" envAllOk).2.2.1⟩

/-- Claim C7: a HardwareDisconnectedError raised while emitting the
commands of a step surfaces to the caller as the typed, catchable error
value of the step (never an untyped abort), and for every transport
environment — including total failure of any of the three sends — the
integral accumulator after the step equals exactly its post-update value
for that frame: the failed send neither rolls it back nor modifies it. -/
theorem C7_failed_send_preserves_accumulator (rl : ℚ) (cfg : Brain.Config)
    (s : Brain.State) (d0 : Brain.Det) (rest : List Brain.Det)
    (fw fh crop : Option ℚ) (link : Hardware.LinkState) (now : ℚ)
    (envx envy envf : Hardware.SendEnv) :
    (run_with_link rl cfg s (d0 :: rest) fw fh crop link now envx envy
        envf).1.arm_x = (Brain.run cfg s (d0 :: rest) fw fh crop).1.arm_x ∧
    (run_with_link rl cfg s (d0 :: rest) fw fh crop link now envx envy
        envf).1.arm_y = (Brain.run cfg s (d0 :: rest) fw fh crop).1.arm_y ∧
    ((run_with_link rl cfg s (d0 :: rest) fw fh crop link now envx envy
        envf).2.2 = none ∨
      ∃ r, (run_with_link rl cfg s (d0 :: rest) fw fh crop link now envx
        envy envf).2.2 = some r ∧ Hardware.SendResult.isErr r = true) := by
  rw [run_state_eq]
  simp only [run_with_link]
  split_ifs <;>
    first
      | exact ⟨rfl, rfl, Or.inl rfl⟩
      | (refine ⟨rfl, rfl, Or.inr ⟨_, rfl, ?_⟩⟩; assumption)
